import Mathlib

/-!
Shallow embedding of the pipeline status reconciliation and credential
resolution logic of the dbt-ml-analytics-pipeline repository
(app.py, scripts/download_and_load_data.py, scripts/load_raw_data.py).

The embedding models:
  * `check_database_status` and the session-state initialization of app.py;
  * `run_dbt_command` of app.py, with the subprocess outcome as explicit data;
  * `get_kaggle_credentials` of app.py, with Streamlit secrets as explicit data;
  * `setup_kaggle_credentials` of scripts/download_and_load_data.py, with the
    process environment as explicit state threaded through the call;
  * the CREATE OR REPLACE TABLE load loop of load_csv_to_duckdb and
    load_raw_data, over a catalog modelled as a list of
    (schema, table, row count) entries;
  * the three Streamlit button handlers of the Data Pipeline page
    (refresh, download, dbt build) as state transformers on the session.
-/

namespace DbtPipeline

/-- The four pipeline states held in `st.session_state.pipeline_status`. -/
inductive PipelineStatus where
  | NotStarted
  | Loading
  | DataLoaded
  | DbtBuilt
deriving DecidableEq, Repr

/-- The string stored in `st.session_state.pipeline_status` for each status,
as written in app.py. -/
def statusKey : PipelineStatus → String
  | .NotStarted => "not_started"
  | .Loading => "loading"
  | .DataLoaded => "data_loaded"
  | .DbtBuilt => "dbt_built"

/-- Environment observed by `check_database_status`: whether the DuckDB file
exists, and the outcome of opening it read-only and counting the tables of the
raw and marts schemas (`.error e` models a raised storage exception with
message `e`; `.ok (r, m)` the two COUNT(*) query results). -/
structure DbEnv where
  dbExists : Bool
  storage : Except String (Nat × Nat)
deriving Repr

/-- app.py `check_database_status`: returns `(is_ready, status_message)`.
Fails fast when the file is absent; any exception while connecting or
querying is caught and rendered as a diagnostic string. -/
def check_database_status (env : DbEnv) : Bool × String :=
  if !env.dbExists then
    (false, "Database not found")
  else
    match env.storage with
    | .error e => (false, "Database error: " ++ e)
    | .ok (rawCount, martsCount) =>
      let raw_exists := rawCount > 0
      let marts_exist := martsCount > 0
      if marts_exist then (true, "✅ Ready - Database & models built")
      else if raw_exists then (false, "⚠️ Data loaded - Run dbt build")
      else (false, "⚠️ Database exists but empty")

/-- app.py `init_session_state`: the `pipeline_status` derived at process
start when the session holds none yet. It probes only when the file exists,
and maps the probe's boolean readiness to `dbt_built` or `not_started`. -/
def init_pipeline_status (env : DbEnv) : String :=
  if env.dbExists then
    if (check_database_status env).1 then statusKey .DbtBuilt
    else statusKey .NotStarted
  else statusKey .NotStarted

/-- The status classification carried by the branches of
`check_database_status`, as a function of the probe triple: the "Ready"
message corresponds to `DbtBuilt`, "Data loaded - Run dbt build" to
`DataLoaded`, and the no-file and empty-database messages to `NotStarted`. -/
def classify_probe (databaseExists hasRawSchema hasMartsSchema : Bool) : PipelineStatus :=
  if !databaseExists then .NotStarted
  else if hasMartsSchema then .DbtBuilt
  else if hasRawSchema then .DataLoaded
  else .NotStarted

/-- Outcome of the `subprocess.run` call in `run_dbt_command`: the process
completed with an exit code and captured stdout/stderr, timed out, or the
call raised some other exception. -/
inductive ProcResult where
  | completed (exitCode : Int) (stdout stderr : String)
  | timedOut
  | raised (msg : String)
deriving DecidableEq, Repr

/-- The `timeout=300` argument passed to `subprocess.run` in app.py. -/
def dbt_timeout_seconds : Nat := 300

/-- app.py `run_dbt_command`: returns `(success, output)`. Success is exactly
exit code zero; the output blob is stdout concatenated with stderr; a
`TimeoutExpired` and any other exception give fixed diagnostic strings. -/
def run_dbt_command (r : ProcResult) : Bool × String :=
  match r with
  | .completed code out err => (code == 0, out ++ err)
  | .timedOut => (false, "Command timed out after 5 minutes")
  | .raised e => (false, "Error running dbt: " ++ e)

/-- Python truthiness of an optional string argument: `None` and the empty
string are falsy, every other string is truthy. -/
def truthy : Option String → Bool
  | none => false
  | some s => !(s == "")

/-- The Kaggle-related process environment variables read and written by
`setup_kaggle_credentials`. -/
structure KaggleEnv where
  kaggle_api_token : Option String
  kaggle_username : Option String
  kaggle_key : Option String
deriving DecidableEq, Repr

/-- Which credential source `setup_kaggle_credentials` selected. -/
inductive CredSource where
  | providedToken (t : String)
  | envToken
  | providedLegacy (u k : String)
  | envLegacy
  | fileCred
deriving DecidableEq, Repr

/-- The ValueError message raised by `setup_kaggle_credentials` when no
credential source matches. -/
def credsNotFoundMsg : String :=
  "Kaggle credentials not found! Please provide them via:\n" ++
  "\nNEW FORMAT (recommended):\n" ++
  "  - Environment: export KAGGLE_API_TOKEN=your_token_here\n" ++
  "  - Parameter: download_and_load_data(api_token=your_token_here)\n" ++
  "\nLEGACY FORMAT:\n" ++
  "  - Environment: export KAGGLE_USERNAME=... KAGGLE_KEY=...\n" ++
  "  - Parameters: download_and_load_data(username=..., key=...)\n" ++
  "  - File: ~/.kaggle/kaggle.json"

/-- scripts/download_and_load_data.py `setup_kaggle_credentials`: tries the
five sources in order; the first two branches that select an explicitly
passed credential also write it into the process environment; with no match
it raises ValueError (modelled as `.error`). Returns the selected source
together with the environment after the call. -/
def setup_kaggle_credentials (api_token username key : Option String)
    (env : KaggleEnv) (kaggleJsonExists : Bool) :
    Except String CredSource × KaggleEnv :=
  if truthy api_token then
    (.ok (.providedToken (api_token.getD "")),
     { env with kaggle_api_token := api_token })
  else if truthy env.kaggle_api_token then
    (.ok .envToken, env)
  else if truthy username && truthy key then
    (.ok (.providedLegacy (username.getD "") (key.getD "")),
     { env with kaggle_username := username, kaggle_key := key })
  else if truthy env.kaggle_username && truthy env.kaggle_key then
    (.ok .envLegacy, env)
  else if kaggleJsonExists then
    (.ok .fileCred, env)
  else
    (.error credsNotFoundMsg, env)

/-- The Streamlit secrets seen by `get_kaggle_credentials`: the key/value
entries of the `[kaggle]` section (an absent section behaves as the empty
list), and whether accessing `st.secrets` raises. -/
structure Secrets where
  kaggle : List (String × String)
  readFails : Bool
deriving Repr

/-- app.py `get_kaggle_credentials`: returns `(api_token, username, key)`.
Any exception while reading secrets is swallowed; the new token format wins
over the legacy pair; the legacy pair requires both entries; otherwise all
three components are `None`. -/
def get_kaggle_credentials (s : Secrets) :
    Option String × Option String × Option String :=
  if s.readFails then (none, none, none)
  else
    match s.kaggle.lookup "api_token" with
    | some t => (some t, none, none)
    | none =>
      match s.kaggle.lookup "username", s.kaggle.lookup "key" with
      | some u, some k => (none, some u, some k)
      | _, _ => (none, none, none)

/-- A CSV input file: its base name (`Path.stem`) and its row count. -/
structure CsvFile where
  name : String
  rows : Nat
deriving DecidableEq, Repr

/-- The database catalog: one entry per table, `(schema, table, row count)`. -/
abbrev Db := List (String × String × Nat)

/-- The effect of `CREATE OR REPLACE TABLE schema.table AS SELECT * FROM
read_csv_auto(...)`: any previous table of that name in that schema is
dropped and replaced by one holding the new rows. -/
def createOrReplaceTable (db : Db) (schema table : String) (rows : Nat) : Db :=
  (schema, table, rows) :: db.filter (fun e => !(e.1 == schema && e.2.1 == table))

/-- One iteration of the load loop of `load_csv_to_duckdb` (and of
`load_raw_data`): the table is named by the file's base name. -/
def load_csv (db : Db) (schema : String) (f : CsvFile) : Db :=
  createOrReplaceTable db schema f.name f.rows

/-- Number of catalog entries for a given schema-qualified table name. -/
def tableCount (db : Db) (schema table : String) : Nat :=
  (db.filter (fun e => e.1 == schema && e.2.1 == table)).length

/-- The row count of the first catalog entry for the table, if any. -/
def lookupRows (db : Db) (schema table : String) : Option Nat :=
  (db.find? (fun e => e.1 == schema && e.2.1 == table)).map (fun e => e.2.2)

/-- The pieces of `st.session_state` touched by the pipeline handlers. -/
structure Session where
  data_loaded : Bool
  dbt_built : Bool
  pipeline_status : String
deriving DecidableEq, Repr

/-- The refresh handler of the Data Pipeline page: sets status to `loading`,
deletes the store, runs `download_and_load_data` (outcome passed as `dl`);
on success marks data loaded, on any exception rolls status back to
`not_started` and surfaces the error message. Returns the session and the
surfaced error message, if any. -/
def refresh_handler (s : Session) (dl : Except String Unit) :
    Session × Option String :=
  let s1 := { s with pipeline_status := statusKey .Loading }
  match dl with
  | .ok _ =>
    ({ s1 with data_loaded := true, pipeline_status := statusKey .DataLoaded }, none)
  | .error e =>
    ({ s1 with pipeline_status := statusKey .NotStarted }, some ("❌ Error: " ++ e))

/-- The first-download handler of the Data Pipeline page (store absent):
same status discipline as the refresh handler, without the deletion. -/
def download_handler (s : Session) (dl : Except String Unit) :
    Session × Option String :=
  let s1 := { s with pipeline_status := statusKey .Loading }
  match dl with
  | .ok _ =>
    ({ s1 with data_loaded := true, pipeline_status := statusKey .DataLoaded }, none)
  | .error e =>
    ({ s1 with pipeline_status := statusKey .NotStarted }, some ("❌ Error: " ++ e))

/-- The dbt build handler of the Data Pipeline page: runs `run_dbt_command
'build'`; on success marks models built and advances status; on failure the
session is left unchanged and only the output is shown. Returns the session
and the displayed output blob. -/
def dbt_build_handler (s : Session) (r : ProcResult) : Session × String :=
  let (success, output) := run_dbt_command r
  if success then
    ({ s with dbt_built := true, pipeline_status := statusKey .DbtBuilt }, output)
  else
    (s, output)

/-- A truthy optional string is some string. -/
theorem exists_of_truthy {o : Option String} (h : truthy o = true) :
    ∃ s, o = some s := by
  cases o with
  | none => simp [truthy] at h
  | some s => exact ⟨s, rfl⟩

/-- Re-filtering with a predicate after keeping only its complement leaves
nothing. -/
theorem filter_of_filter_not {α : Type} (p : α → Bool) (l : List α) :
    (l.filter (fun a => !(p a))).filter p = [] := by
  induction l with
  | nil => rfl
  | cons a l ih =>
    cases h : p a <;> simp [List.filter_cons, h, ih]

/-- A single CREATE OR REPLACE load leaves exactly one catalog entry for the
file's table name, holding the file's row count. -/
theorem load_csv_unique (db : Db) (schema : String) (f : CsvFile) :
    tableCount (load_csv db schema f) schema f.name = 1
  ∧ lookupRows (load_csv db schema f) schema f.name = some f.rows := by
  have hz := filter_of_filter_not
    (fun e : String × String × Nat => e.1 == schema && e.2.1 == f.name) db
  constructor
  · simp [tableCount, load_csv, createOrReplaceTable, List.filter_cons, hz]
  · simp [lookupRows, load_csv, createOrReplaceTable, List.find?]

/-- C1: the probe-triple classification follows the mapped table, and the
`check_database_status` messages agree with it; but the status the process
derives at start does not: with raw present and marts absent, start-up
derives `not_started`, not `data_loaded` as the claim states (C1). -/
theorem c1_counterexample :
    classify_probe true true false = PipelineStatus.DataLoaded
  ∧ check_database_status ⟨true, .ok (1, 0)⟩ =
      (false, "⚠️ Data loaded - Run dbt build")
  ∧ init_pipeline_status ⟨true, .ok (1, 0)⟩ ≠ statusKey .DataLoaded
  ∧ init_pipeline_status ⟨true, .ok (1, 0)⟩ = statusKey .NotStarted := by
  refine ⟨by decide, by decide, by decide, by decide⟩

/-- C1 (amended): the classification is a total deterministic function of
the probe triple with the mapped values, and `check_database_status` reports
the matching message for each; at process start, however, the derived status
collapses the table to two values: `dbt_built` when marts are present and
`not_started` otherwise (absent, empty, raw-only, and probe-error stores
all start as `not_started`). -/
theorem c1_status_classification (x y : Bool) (r m : Nat) (e : String)
    (st : Except String (Nat × Nat)) :
    classify_probe false x y = .NotStarted
  ∧ classify_probe true false false = .NotStarted
  ∧ classify_probe true true false = .DataLoaded
  ∧ classify_probe true false true = .DbtBuilt
  ∧ classify_probe true true true = .DbtBuilt
  ∧ check_database_status ⟨false, st⟩ = (false, "Database not found")
  ∧ check_database_status ⟨true, .ok (0, 0)⟩ =
      (false, "⚠️ Database exists but empty")
  ∧ check_database_status ⟨true, .ok (r + 1, 0)⟩ =
      (false, "⚠️ Data loaded - Run dbt build")
  ∧ check_database_status ⟨true, .ok (r, m + 1)⟩ =
      (true, "✅ Ready - Database & models built")
  ∧ init_pipeline_status ⟨false, st⟩ = statusKey .NotStarted
  ∧ init_pipeline_status ⟨true, .ok (r, m + 1)⟩ = statusKey .DbtBuilt
  ∧ init_pipeline_status ⟨true, .ok (r + 1, 0)⟩ = statusKey .NotStarted
  ∧ init_pipeline_status ⟨true, .ok (0, 0)⟩ = statusKey .NotStarted
  ∧ init_pipeline_status ⟨true, .error e⟩ = statusKey .NotStarted := by
  refine ⟨by cases x <;> cases y <;> decide, by decide, by decide, by decide,
    by decide,
    by simp [check_database_status], by decide,
    by simp [check_database_status],
    by simp [check_database_status],
    by simp [init_pipeline_status, statusKey],
    by simp [init_pipeline_status, check_database_status, statusKey],
    by simp [init_pipeline_status, check_database_status, statusKey],
    by decide,
    by simp [init_pipeline_status, check_database_status, statusKey]⟩

/-- C2: an explicitly supplied (non-empty) token parameter fully shadows
every later credential source: resolution selects the token and writes it to
the environment, regardless of ambient legacy environment variables. -/
theorem c2_token_shadows_legacy (t : String) (u k : Option String)
    (env : KaggleEnv) (kaggleJsonExists : Bool)
    (h : truthy (some t) = true) :
    setup_kaggle_credentials (some t) u k env kaggleJsonExists =
      (.ok (.providedToken t), { env with kaggle_api_token := some t }) := by
  simp [setup_kaggle_credentials, h]

/-- Witness for C2: with the token "tok" supplied and both legacy
environment variables set, resolution returns the token credential. -/
theorem c2_witness :
    truthy (some "tok") = true
  ∧ setup_kaggle_credentials (some "tok") none none
      ⟨none, some "user", some "key"⟩ false =
      (.ok (.providedToken "tok"), ⟨some "tok", some "user", some "key"⟩) :=
  ⟨by decide,
   c2_token_shadows_legacy "tok" none none ⟨none, some "user", some "key"⟩
     false (by decide)⟩

/-- C3: every storage exception raised while the probe opens or queries the
store is caught and mapped to a non-ready status with a diagnostic string;
it never propagates. -/
theorem c3_probe_catches_storage_errors (e : String) :
    check_database_status ⟨true, .error e⟩ = (false, "Database error: " ++ e) := by
  simp [check_database_status]

/-- C4: a failing download (refresh path or first download) rolls the status
back to `not_started` — never leaves it at `loading` — and surfaces the
exception message; a failing transform leaves the session unchanged. -/
theorem c4_stage_error_rollback (s : Session) (e out err : String) (code : Int) :
    (refresh_handler s (.error e)).1.pipeline_status = statusKey .NotStarted
  ∧ (refresh_handler s (.error e)).1.pipeline_status ≠ statusKey .Loading
  ∧ (refresh_handler s (.error e)).2 = some ("❌ Error: " ++ e)
  ∧ (download_handler s (.error e)).1.pipeline_status = statusKey .NotStarted
  ∧ (download_handler s (.error e)).1.pipeline_status ≠ statusKey .Loading
  ∧ (download_handler s (.error e)).2 = some ("❌ Error: " ++ e)
  ∧ (dbt_build_handler s .timedOut).1 = s
  ∧ (dbt_build_handler s (.raised err)).1 = s
  ∧ (dbt_build_handler s (.completed code out err)).1 =
      (if code == 0 then
        { s with dbt_built := true, pipeline_status := statusKey .DbtBuilt }
       else s) := by
  refine ⟨rfl, (by decide : ("not_started" : String) ≠ "loading"), rfl, rfl,
    (by decide : ("not_started" : String) ≠ "loading"), rfl, rfl, rfl, ?_⟩
  cases h : code == 0 <;>
    simp [dbt_build_handler, run_dbt_command, h]

/-- C5: the transform invocation succeeds exactly when the exit code is
zero, returns stdout and stderr concatenated as one blob, uses a 300-second
timeout, and reports a timeout with a dedicated message distinct from the
report of a non-zero exit. -/
theorem c5_dbt_outcome_classification (code : Int) (out err : String)
    (h : out ++ err ≠ "Command timed out after 5 minutes") :
    dbt_timeout_seconds = 300
  ∧ (run_dbt_command (.completed code out err)).1 = (code == 0)
  ∧ (run_dbt_command (.completed code out err)).2 = out ++ err
  ∧ run_dbt_command .timedOut = (false, "Command timed out after 5 minutes")
  ∧ run_dbt_command .timedOut ≠ run_dbt_command (.completed code out err) := by
  refine ⟨rfl, rfl, rfl, rfl, ?_⟩
  intro hcontra
  apply h
  have h2 := congrArg Prod.snd hcontra
  simpa [run_dbt_command] using h2.symm

/-- Witness for C5: a failed run with exit code 1 and output "dbt log" is
classified differently from a timed-out run. -/
theorem c5_witness :
    "dbt log" ++ "" ≠ "Command timed out after 5 minutes"
  ∧ (dbt_timeout_seconds = 300
     ∧ (run_dbt_command (.completed 1 "dbt log" "")).1 = ((1 : Int) == 0)
     ∧ (run_dbt_command (.completed 1 "dbt log" "")).2 = "dbt log" ++ ""
     ∧ run_dbt_command .timedOut = (false, "Command timed out after 5 minutes")
     ∧ run_dbt_command .timedOut ≠ run_dbt_command (.completed 1 "dbt log" "")) :=
  ⟨by decide, c5_dbt_outcome_classification 1 "dbt log" "" (by decide)⟩

/-- C6: loading a file twice (same base name, possibly updated contents)
leaves exactly one table named by the base name, holding the row count of the
most recent load — never a duplicate table and never appended rows. -/
theorem c6_reload_overwrites (db : Db) (schema : String) (f g : CsvFile)
    (h : f.name = g.name) :
    tableCount (load_csv (load_csv db schema f) schema g) schema g.name = 1
  ∧ lookupRows (load_csv (load_csv db schema f) schema g) schema g.name =
      some g.rows :=
  load_csv_unique (load_csv db schema f) schema g

/-- Witness for C6: loading `orders.csv` with 3 rows and reloading it with 5
rows leaves one `raw.orders` table with 5 rows. -/
theorem c6_witness :
    (CsvFile.mk "orders" 3).name = (CsvFile.mk "orders" 5).name
  ∧ (tableCount (load_csv (load_csv [] "raw" ⟨"orders", 3⟩) "raw" ⟨"orders", 5⟩)
       "raw" "orders" = 1
     ∧ lookupRows (load_csv (load_csv [] "raw" ⟨"orders", 3⟩) "raw" ⟨"orders", 5⟩)
         "raw" "orders" = some 5) :=
  ⟨rfl, c6_reload_overwrites [] "raw" ⟨"orders", 3⟩ ⟨"orders", 5⟩ rfl⟩

/-- C7: a legacy username without a key — and symmetrically a key without a
username — does not match the explicit legacy source; resolution falls
through the remaining sources and, when none match, ends in the
credentials-not-found error — never a partial legacy credential. Likewise,
the app-level getter maps a username-only secrets section, and a key-only
secrets section, to the all-`None` triple. -/
theorem c7_partial_legacy_is_absent (u k0 : String) (k un : Option String)
    (env : KaggleEnv)
    (hk : truthy k = false)
    (hun : truthy un = false)
    (ht : truthy env.kaggle_api_token = false)
    (he : (truthy env.kaggle_username && truthy env.kaggle_key) = false) :
    (setup_kaggle_credentials none (some u) k env false).1 =
      .error credsNotFoundMsg
  ∧ (setup_kaggle_credentials none un (some k0) env false).1 =
      .error credsNotFoundMsg
  ∧ (∀ a b, (setup_kaggle_credentials none (some u) k env false).1 ≠
      .ok (.providedLegacy a b))
  ∧ (∀ a b, (setup_kaggle_credentials none un (some k0) env false).1 ≠
      .ok (.providedLegacy a b))
  ∧ (∀ sec : List (String × String),
      sec.lookup "api_token" = none → sec.lookup "key" = none →
      get_kaggle_credentials ⟨sec, false⟩ = (none, none, none))
  ∧ (∀ sec : List (String × String),
      sec.lookup "api_token" = none → sec.lookup "username" = none →
      get_kaggle_credentials ⟨sec, false⟩ = (none, none, none)) := by
  have hnone : truthy (none : Option String) = false := rfl
  have hmain : (setup_kaggle_credentials none (some u) k env false).1 =
      .error credsNotFoundMsg := by
    have hk2 : (truthy (some u) && truthy k) = false := by
      rw [hk, Bool.and_false]
    simp [setup_kaggle_credentials, hnone, hk2, ht, he]
  have hmain2 : (setup_kaggle_credentials none un (some k0) env false).1 =
      .error credsNotFoundMsg := by
    have hu2 : (truthy un && truthy (some k0)) = false := by
      rw [hun, Bool.false_and]
    simp [setup_kaggle_credentials, hnone, hu2, ht, he]
  refine ⟨hmain, hmain2, ?_, ?_, ?_, ?_⟩
  · intro a b hcontra
    rw [hmain] at hcontra
    exact Except.noConfusion hcontra
  · intro a b hcontra
    rw [hmain2] at hcontra
    exact Except.noConfusion hcontra
  · intro sec h1 h2
    cases hu : sec.lookup "username" <;>
      simp [get_kaggle_credentials, h1, h2, hu]
  · intro sec h1 h2
    cases hkk : sec.lookup "key" <;>
      simp [get_kaggle_credentials, h1, h2, hkk]

/-- Witness for C7: username "alice" with no key, a key "sk" with no
username, an environment holding only a legacy username, and secrets
sections holding only a username or only a key all resolve to absence. -/
theorem c7_witness :
    (truthy (none : Option String) = false
     ∧ truthy (KaggleEnv.mk none (some "bob") none).kaggle_api_token = false
     ∧ (truthy (KaggleEnv.mk none (some "bob") none).kaggle_username &&
        truthy (KaggleEnv.mk none (some "bob") none).kaggle_key) = false)
  ∧ ((setup_kaggle_credentials none (some "alice") none
        ⟨none, some "bob", none⟩ false).1 = .error credsNotFoundMsg
     ∧ (setup_kaggle_credentials none none (some "sk")
          ⟨none, some "bob", none⟩ false).1 = .error credsNotFoundMsg
     ∧ get_kaggle_credentials ⟨[("username", "carol")], false⟩ =
         (none, none, none)
     ∧ get_kaggle_credentials ⟨[("key", "sk")], false⟩ =
         (none, none, none)) := by
  have h := c7_partial_legacy_is_absent "alice" "sk" none none
    ⟨none, some "bob", none⟩ (by decide) (by decide) (by decide) (by decide)
  exact ⟨⟨by decide, by decide, by decide⟩,
    h.1, h.2.1,
    h.2.2.2.2.1 [("username", "carol")] (by decide) (by decide),
    h.2.2.2.2.2 [("key", "sk")] (by decide) (by decide)⟩

/-- C8: the claim that resolution has no side effects is false: supplying an
explicit token writes it into the process environment, so the environment
after the call differs from the environment before it. -/
theorem c8_counterexample :
    (setup_kaggle_credentials (some "T") none none ⟨none, none, none⟩ false).2 =
      ⟨some "T", none, none⟩
  ∧ (⟨some "T", none, none⟩ : KaggleEnv) ≠ ⟨none, none, none⟩ := by
  exact ⟨by decide, by decide⟩

/-- C8 (amended): resolution is a deterministic function of its explicit
parameters, the environment and the filesystem, but it is not side-effect
free: its only mutation is writing an explicitly passed credential (the
token, or a complete legacy pair) into the environment when that source is
selected; in every other case the environment is unchanged. -/
theorem c8_env_mutation_frame (tok u k : Option String) (env : KaggleEnv)
    (kaggleJsonExists : Bool) :
    (setup_kaggle_credentials tok u k env kaggleJsonExists).2 = env
  ∨ (∃ t, tok = some t ∧
      (setup_kaggle_credentials tok u k env kaggleJsonExists).2 =
        { env with kaggle_api_token := some t })
  ∨ (∃ a b, u = some a ∧ k = some b ∧
      (setup_kaggle_credentials tok u k env kaggleJsonExists).2 =
        { env with kaggle_username := some a, kaggle_key := some b }) := by
  by_cases h1 : truthy tok = true
  · obtain ⟨t, rfl⟩ := exists_of_truthy h1
    exact Or.inr (Or.inl ⟨t, rfl, by simp [setup_kaggle_credentials, h1]⟩)
  · rw [Bool.not_eq_true] at h1
    by_cases h2 : truthy env.kaggle_api_token = true
    · exact Or.inl (by simp [setup_kaggle_credentials, h1, h2])
    · rw [Bool.not_eq_true] at h2
      by_cases h3 : (truthy u && truthy k) = true
      · obtain ⟨hu, hk⟩ := Bool.and_eq_true _ _ |>.mp h3
        obtain ⟨a, rfl⟩ := exists_of_truthy hu
        obtain ⟨b, rfl⟩ := exists_of_truthy hk
        exact Or.inr (Or.inr ⟨a, b, rfl, rfl,
          by simp [setup_kaggle_credentials, h1, h2, h3]⟩)
      · rw [Bool.not_eq_true] at h3
        left
        simp only [setup_kaggle_credentials, h1, h2, h3]
        repeat' split
        all_goals simp_all

/-- C9: when no credential source matches, the app-level resolver returns
the all-`None` triple without raising; the error appears only where
credentials are actually required (the download stage raises the
credentials-not-found error) and is surfaced by the driver as a message. -/
theorem c9_notfound_is_not_an_error (sec : List (String × String)) (rf : Bool)
    (s : Session) (e : String)
    (h1 : sec.lookup "api_token" = none)
    (h2 : sec.lookup "username" = none ∨ sec.lookup "key" = none) :
    get_kaggle_credentials ⟨sec, rf⟩ = (none, none, none)
  ∧ (setup_kaggle_credentials none none none ⟨none, none, none⟩ false).1 =
      .error credsNotFoundMsg
  ∧ (download_handler s (.error e)).2 = some ("❌ Error: " ++ e) := by
  refine ⟨?_, rfl, rfl⟩
  cases rf with
  | false =>
    cases h2 with
    | inl hu =>
      cases hk : sec.lookup "key" <;>
        simp [get_kaggle_credentials, h1, hu, hk]
    | inr hk =>
      cases hu : sec.lookup "username" <;>
        simp [get_kaggle_credentials, h1, hk, hu]
  | true => simp [get_kaggle_credentials]

/-- Witness for C9: a secrets section holding only a key resolves to the
all-`None` triple; the download stage surfaces the missing-credentials
error message. -/
theorem c9_witness :
    (List.lookup "api_token" [("key", "sk2")] = none
     ∧ (List.lookup "username" [("key", "sk2")] = none
        ∨ List.lookup "key" [("key", "sk2")] = none))
  ∧ (get_kaggle_credentials ⟨[("key", "sk2")], false⟩ = (none, none, none)
     ∧ (setup_kaggle_credentials none none none ⟨none, none, none⟩ false).1 =
         .error credsNotFoundMsg
     ∧ (download_handler ⟨false, false, "not_started"⟩
          (.error "creds missing")).2 = some ("❌ Error: " ++ "creds missing")) :=
  ⟨⟨by decide, Or.inl (by decide)⟩,
   c9_notfound_is_not_an_error [("key", "sk2")] false
     ⟨false, false, "not_started"⟩ "creds missing" (by decide)
     (Or.inl (by decide))⟩

/-- C10: the app-level credential getter is total (any exception while
reading secrets yields the all-`None` triple) and every returned triple has
one of the three shapes: token only, complete legacy pair, or all `None`. -/
theorem c10_credentials_shape (sec : List (String × String)) (rf : Bool) :
    ((∃ t, get_kaggle_credentials ⟨sec, rf⟩ = (some t, none, none))
     ∨ (∃ a b, get_kaggle_credentials ⟨sec, rf⟩ = (none, some a, some b))
     ∨ get_kaggle_credentials ⟨sec, rf⟩ = (none, none, none))
  ∧ get_kaggle_credentials ⟨sec, true⟩ = (none, none, none) := by
  refine ⟨?_, by simp [get_kaggle_credentials]⟩
  cases rf with
  | true => exact Or.inr (Or.inr (by simp [get_kaggle_credentials]))
  | false =>
    cases ht : sec.lookup "api_token" with
    | some t =>
      exact Or.inl ⟨t, by simp [get_kaggle_credentials, ht]⟩
    | none =>
      cases hu : sec.lookup "username" with
      | none =>
        refine Or.inr (Or.inr ?_)
        cases hk : sec.lookup "key" <;>
          simp [get_kaggle_credentials, ht, hu, hk]
      | some a =>
        cases hk : sec.lookup "key" with
        | none =>
          exact Or.inr (Or.inr (by simp [get_kaggle_credentials, ht, hu, hk]))
        | some b =>
          exact Or.inr (Or.inl ⟨a, b,
            by simp [get_kaggle_credentials, ht, hu, hk]⟩)

end DbtPipeline
